import Mathlib

/-!
Verification of the FAQ chatbot request-shaping and response-caching
pipeline, embedded shallowly from the Python sources.  Temperatures and
elapsed times are modelled as rationals; the external provider call and the
wall clock are oracle inputs to the `chat` step.
-/

namespace FAQBot

/-! ### Urgency classification (src/urgency.py) -/

/-- The fixed keyword list of `detect_urgency` in src/urgency.py. -/
def urgent_keywords : List String :=
  ["urgent", "urgently",
   "immediately", "immediate",
   "asap", "a.s.a.p",
   "right now",
   "help!", "help me",
   "emergency", "critical",
   "broken", "not working",
   "problem", "issue",
   "!!!", "!!!!"]

/-- Python `str.lower`, restricted to the ASCII case mapping. -/
def pyLower (s : String) : String := ⟨s.data.map Char.toLower⟩

/-- Boolean test that `n` is an initial segment of `h`. -/
def isPre : List Char → List Char → Bool
  | [], _ => true
  | _ :: _, [] => false
  | a :: as, b :: bs => a == b && isPre as bs

/-- Boolean test that `n` occurs contiguously inside `h`
(Python `n in h` on strings). -/
def hasSub (n : List Char) : List Char → Bool
  | [] => isPre n []
  | b :: bs => isPre n (b :: bs) || hasSub n bs

/-- `detect_urgency` from src/urgency.py: 0.1 when any keyword occurs in the
lowercased text, 0.9 otherwise. -/
def detect_urgency (text : String) : ℚ :=
  let text_lower := pyLower text
  if urgent_keywords.any (fun word => hasSub word.data text_lower.data) then
    1/10
  else
    9/10

/-- `get_urgency_level` from src/urgency.py. -/
def get_urgency_level (text : String) : String :=
  if detect_urgency text = 1/10 then "URGENT" else "CASUAL"

/-- A marker from the fixed list occurs somewhere in the lowercased text. -/
def markerOccurs (text : String) : Prop :=
  ∃ w ∈ urgent_keywords, ∃ p q, (pyLower text).data = p ++ w.data ++ q

/-! ### Data model of src/faq_bot.py -/

/-- Message roles used by the prompt assembly. -/
inductive Role where
  | system
  | user
  | assistant
deriving DecidableEq

/-- A chat message: role plus content. -/
structure Msg where
  role : Role
  content : String
deriving DecidableEq

/-- The statistics dictionary of FAQChatbot.__init__. -/
structure Stats where
  total_queries : Nat
  urgent_queries : Nat
  casual_queries : Nat
  cache_hits : Nat
  cache_misses : Nat
  total_time : ℚ
deriving DecidableEq

/-- A constructed ChatOpenAI client; `id` tracks object identity so that
constructing a new client is observable. -/
structure LLMClient where
  id : Nat
  model : String
  temperature : ℚ
  max_tokens : Nat
deriving DecidableEq

/-- The mutable state of a FAQChatbot instance. -/
structure BotState where
  chat_history : List Msg
  stats : Stats
  model_name : String
  current_llm : Option LLMClient
  current_temperature : Option ℚ
  next_llm_id : Nat
deriving DecidableEq

/-- Apostrophe character, kept out of string literals. -/
def apos : String := String.singleton (Char.ofNat 39)

/-- The static FAQ knowledge base of FAQChatbot.__init__, in insertion order. -/
def faq_data : List (String × String) :=
  [("hours", "We" ++ apos ++ "re open Monday-Friday 9 AM - 6 PM, Saturday 10 AM - 4 PM, closed Sunday."),
   ("location", "We" ++ apos ++ "re located at 123 Main Street, Downtown, New York, NY 10001."),
   ("contact", "You can reach us at (555) 123-4567 or email support@example.com"),
   ("returns", "Returns accepted within 30 days with receipt. Full refund or exchange available."),
   ("shipping", "Free shipping on orders over $50. Standard delivery: 3-5 business days. Express: 1-2 days."),
   ("payment", "We accept Visa, MasterCard, American Express, PayPal, and Apple Pay."),
   ("warranty", "All products come with a 1-year manufacturer warranty."),
   ("track_order", "You can track your order at example.com/track using your order number.")]

/-- The FAQ bullet list built by FAQChatbot._get_system_prompt. -/
def faq_text : String :=
  String.intercalate "\n" (faq_data.map fun kv => "- " ++ kv.1.toUpper ++ ": " ++ kv.2)

/-- FAQChatbot._get_system_prompt. -/
def get_system_prompt : String :=
  "You are a helpful and friendly customer support assistant.\n\n" ++
  "📋 FAQ KNOWLEDGE BASE:\n" ++ faq_text ++ "\n\n" ++
  "INSTRUCTIONS:\n" ++
  "- Answer questions accurately using the FAQ knowledge above\n" ++
  "- For urgent queries: Be direct, concise, and action-oriented\n" ++
  "- For casual queries: Be friendly, conversational, and helpful\n" ++
  "- If you don" ++ apos ++ "t know something, be honest and offer to connect them with support\n" ++
  "- Always maintain a professional yet warm tone"

/-- Fresh FAQChatbot state (FAQChatbot.__init__). -/
def initBot (model : String) : BotState :=
  { chat_history := []
    stats := { total_queries := 0, urgent_queries := 0, casual_queries := 0,
               cache_hits := 0, cache_misses := 0, total_time := 0 }
    model_name := model
    current_llm := none
    current_temperature := none
    next_llm_id := 0 }

/-- Construct a fresh ChatOpenAI client and record it as current
(the body of the conditional in FAQChatbot._get_llm). -/
def newClient (st : BotState) (temperature : ℚ) : LLMClient × BotState :=
  let c : LLMClient :=
    { id := st.next_llm_id, model := st.model_name,
      temperature := temperature, max_tokens := 300 }
  (c, { st with current_llm := some c,
                current_temperature := some temperature,
                next_llm_id := st.next_llm_id + 1 })

/-- FAQChatbot._get_llm: reuse the current client unless none exists or the
temperature changed. -/
def get_llm (st : BotState) (temperature : ℚ) : LLMClient × BotState :=
  match st.current_llm, st.current_temperature with
  | some c, some t => if t = temperature then (c, st) else newClient st temperature
  | some _, none => newClient st temperature
  | none, _ => newClient st temperature

/-- Outcome of the provider call inside chain.invoke: either generated text
plus token usage, or a raised exception rendered as a string. -/
inductive Outcome where
  | ok (content : String) (token_usage : List (String × Nat))
  | err (msg : String)
deriving DecidableEq

/-- The dictionary returned by FAQChatbot.chat, in its success and failure
shapes. -/
inductive ChatResult where
  | ok (message : String) (urgency : String) (temperature : ℚ) (time : ℚ)
       (cached : Bool) (tokens : List (String × Nat))
  | err (error : String) (urgency : String) (temperature : ℚ)
deriving DecidableEq

/-- The "success" key of the returned dictionary. -/
def ChatResult.success : ChatResult → Bool
  | .ok .. => true
  | .err .. => false

/-- The "message" key of the returned dictionary, absent on failure. -/
def ChatResult.message : ChatResult → Option String
  | .ok m .. => some m
  | .err .. => none

/-- The "cached" key of the returned dictionary, absent on failure. -/
def ChatResult.cached : ChatResult → Option Bool
  | .ok _ _ _ _ c _ => some c
  | .err .. => none

/-- The query-counter updates of FAQChatbot.chat (lines 149-154). -/
def record_query (s : Stats) (urgency_level : String) : Stats :=
  let s1 := { s with total_queries := s.total_queries + 1 }
  if urgency_level = "URGENT" then
    { s1 with urgent_queries := s1.urgent_queries + 1 }
  else
    { s1 with casual_queries := s1.casual_queries + 1 }

/-- The timing and cache-estimate updates on the success path of
FAQChatbot.chat (lines 173-181). -/
def record_success (s : Stats) (elapsed_time : ℚ) : Stats :=
  let s1 := { s with total_time := s.total_time + elapsed_time }
  if elapsed_time < 1/10 then
    { s1 with cache_hits := s1.cache_hits + 1 }
  else
    { s1 with cache_misses := s1.cache_misses + 1 }

/-- FAQChatbot.chat.  The provider outcome and the measured elapsed time are
oracle inputs; on success the history gains the user and assistant messages
and the timing and cache-estimate counters are updated, on failure only the
query counters (already updated before the call) change. -/
def chat (st : BotState) (user_input : String) (outcome : Outcome)
    (elapsed_time : ℚ) : ChatResult × BotState :=
  let temperature := detect_urgency user_input
  let urgency_level := get_urgency_level user_input
  let st1 : BotState := { st with stats := record_query st.stats urgency_level }
  let st2 : BotState := (get_llm st1 temperature).2
  match outcome with
  | .ok content token_usage =>
      let st3 : BotState :=
        { st2 with
          chat_history := st2.chat_history ++
            [{ role := .user, content := user_input },
             { role := .assistant, content := content }]
          stats := record_success st2.stats elapsed_time }
      (ChatResult.ok content urgency_level temperature elapsed_time
         (decide (elapsed_time < 1/10)) token_usage, st3)
  | .err e => (ChatResult.err e urgency_level temperature, st2)

/-- FAQChatbot.clear_history. -/
def clear_history (st : BotState) : BotState :=
  { st with chat_history := [] }

/-- FAQChatbot.get_stats. -/
def get_stats (st : BotState) : Stats := st.stats

/-- The guarded performance section of FAQChatbot.show_stats: average
response time and cache-hit rate, printed only when total_queries > 0. -/
def show_stats (s : Stats) : Option (ℚ × ℚ) :=
  if s.total_queries > 0 then
    some (s.total_time / (s.total_queries : ℚ),
          ((s.cache_hits : ℚ) / (s.total_queries : ℚ)) * 100)
  else
    none

/-! ### Sequences of operations -/

/-- One successful chat turn: the submitted input, the provider text and
token usage, and the measured elapsed time. -/
structure Turn where
  input : String
  content : String
  tokens : List (String × Nat)
  elapsed : ℚ
deriving DecidableEq

/-- Run a sequence of successful chat turns. -/
def runSuccess (st : BotState) : List Turn → BotState
  | [] => st
  | t :: rest => runSuccess (chat st t.input (.ok t.content t.tokens) t.elapsed).2 rest

/-- Number of turns whose input classifies as URGENT. -/
def countUrgent (ts : List Turn) : Nat :=
  (ts.filter fun t => get_urgency_level t.input == "URGENT").length

/-- Number of turns whose input classifies as CASUAL. -/
def countCasual (ts : List Turn) : Nat :=
  (ts.filter fun t => get_urgency_level t.input == "CASUAL").length

/-- An operation on the session: a chat call with an arbitrary provider
outcome, or a history clear. -/
inductive Op where
  | chatOp (input : String) (outcome : Outcome) (elapsed : ℚ)
  | clearOp
deriving DecidableEq

/-- Run a sequence of session operations. -/
def runOps (st : BotState) : List Op → BotState
  | [] => st
  | Op.chatOp i o e :: rest => runOps (chat st i o e).2 rest
  | Op.clearOp :: rest => runOps (clear_history st) rest

/-- The tier counters partition the query counter. -/
def statsInv (st : BotState) : Prop :=
  st.stats.urgent_queries + st.stats.casual_queries = st.stats.total_queries

/-! ### Response cache (src/cache.py installs langchain InMemoryCache) -/

/-- The full generation request: ordered messages, generation parameter and
model identifier.  Two requests are equivalent iff every field matches. -/
structure GenerationRequest where
  messages : List Msg
  temperature : ℚ
  model : String
deriving DecidableEq

/-- The prompt assembly of FAQChatbot.chat: the system message built from the
FAQ data, the full existing history, then the new user message; paired with
the parameter chosen by the classifier and the model name. -/
def build_request (chat_history : List Msg) (model_name user_input : String) :
    GenerationRequest :=
  { messages := { role := .system, content := get_system_prompt } ::
                chat_history ++ [{ role := .user, content := user_input }]
    temperature := detect_urgency user_input
    model := model_name }

/-- Modelled from the spec: the memoization layer installed by src/cache.py
(langchain InMemoryCache via set_llm_cache) is external library code absent
from src/.  Per spec section 4.2 it is an unbounded in-process mapping from
the generation request to the produced text and token usage. -/
structure CacheState where
  entries : List (GenerationRequest × (String × List (String × Nat)))
deriving DecidableEq

/-- Modelled from the spec: cache lookup by exact request equality. -/
def cacheLookup (c : CacheState) (k : GenerationRequest) :
    Option (String × List (String × Nat)) :=
  (c.entries.find? fun e => e.1 == k).map (·.2)

/-- Modelled from the spec: on a key match return the stored result without
computing and mark was_hit; otherwise compute once, store under the key and
mark a miss. -/
def lookup_or_compute (c : CacheState) (k : GenerationRequest)
    (compute : String × List (String × Nat)) :
    (String × List (String × Nat)) × Bool × CacheState :=
  match cacheLookup c k with
  | some v => (v, true, c)
  | none => (compute, false, { entries := (k, compute) :: c.entries })

/-! ### Substring correctness -/

lemma isPre_iff (n : List Char) : ∀ h, isPre n h = true ↔ ∃ t, h = n ++ t := by
  induction n with
  | nil =>
      intro h
      simp [isPre]
  | cons a as ih =>
      intro h
      cases h with
      | nil =>
          simp [isPre]
      | cons b bs =>
          simp only [isPre, Bool.and_eq_true, beq_iff_eq, ih, List.cons_append,
            List.cons.injEq]
          constructor
          · rintro ⟨rfl, t, rfl⟩
            exact ⟨t, rfl, rfl⟩
          · rintro ⟨t, rfl, rfl⟩
            exact ⟨rfl, t, rfl⟩

lemma hasSub_iff (n : List Char) : ∀ h, hasSub n h = true ↔ ∃ p q, h = p ++ n ++ q := by
  intro h
  induction h with
  | nil =>
      simp only [hasSub, isPre_iff]
      constructor
      · rintro ⟨t, ht⟩
        obtain ⟨hn, ht'⟩ := List.append_eq_nil.mp ht.symm
        exact ⟨[], [], by simp [hn]⟩
      · rintro ⟨p, q, hpq⟩
        have h1 := List.append_eq_nil.mp hpq.symm
        have h2 := List.append_eq_nil.mp h1.1
        exact ⟨[], by simp [h2.2]⟩
  | cons b bs ih =>
      simp only [hasSub, Bool.or_eq_true, isPre_iff, ih]
      constructor
      · rintro (⟨t, ht⟩ | ⟨p, q, hpq⟩)
        · exact ⟨[], t, by simpa using ht⟩
        · exact ⟨b :: p, q, by simp [hpq]⟩
      · rintro ⟨p, q, hpq⟩
        cases p with
        | nil =>
            exact Or.inl ⟨q, by simpa using hpq⟩
        | cons c p' =>
            right
            simp only [List.cons_append, List.cons.injEq] at hpq
            exact ⟨p', q, hpq.2⟩

/-! ### Classifier lemmas -/

lemma detect_urgency_of_marker {text : String} (h : markerOccurs text) :
    detect_urgency text = 1/10 := by
  obtain ⟨w, hw, p, q, hpq⟩ := h
  have hany : (urgent_keywords.any fun word => hasSub word.data (pyLower text).data) = true := by
    rw [List.any_eq_true]
    exact ⟨w, hw, (hasSub_iff w.data (pyLower text).data).mpr ⟨p, q, hpq⟩⟩
  simp [detect_urgency, hany]

lemma detect_urgency_of_no_marker {text : String} (h : ¬ markerOccurs text) :
    detect_urgency text = 9/10 := by
  have hany : (urgent_keywords.any fun word => hasSub word.data (pyLower text).data) = false := by
    rw [List.any_eq_false]
    intro w hw
    intro hsub
    exact h ⟨w, hw, (hasSub_iff w.data (pyLower text).data).mp hsub⟩
  simp [detect_urgency, hany]

lemma get_urgency_level_urgent {text : String} (hd : detect_urgency text = 1/10) :
    get_urgency_level text = "URGENT" := by
  unfold get_urgency_level
  rw [hd]
  simp

lemma get_urgency_level_casual {text : String} (hd : detect_urgency text = 9/10) :
    get_urgency_level text = "CASUAL" := by
  unfold get_urgency_level
  rw [hd]
  norm_num

/-! ### State-machine lemmas -/

lemma get_llm_preserve (st : BotState) (t : ℚ) :
    (get_llm st t).2.stats = st.stats ∧
    (get_llm st t).2.chat_history = st.chat_history ∧
    (get_llm st t).2.model_name = st.model_name := by
  unfold get_llm newClient
  cases st.current_llm with
  | none => cases st.current_temperature <;> exact ⟨rfl, rfl, rfl⟩
  | some c =>
      cases st.current_temperature with
      | none => exact ⟨rfl, rfl, rfl⟩
      | some t0 =>
          by_cases ht : t0 = t
          · simp [ht]
          · simp [ht]

lemma record_query_spec (s : Stats) (u : String) :
    (record_query s u).total_queries = s.total_queries + 1 ∧
    (record_query s u).urgent_queries
      = s.urgent_queries + (if u = "URGENT" then 1 else 0) ∧
    (record_query s u).casual_queries
      = s.casual_queries + (if u = "URGENT" then 0 else 1) ∧
    (record_query s u).cache_hits = s.cache_hits ∧
    (record_query s u).cache_misses = s.cache_misses ∧
    (record_query s u).total_time = s.total_time := by
  unfold record_query
  by_cases h : u = "URGENT" <;> simp [h]

lemma record_success_spec (s : Stats) (e : ℚ) :
    (record_success s e).total_queries = s.total_queries ∧
    (record_success s e).urgent_queries = s.urgent_queries ∧
    (record_success s e).casual_queries = s.casual_queries ∧
    (record_success s e).cache_hits = s.cache_hits + (if e < 1/10 then 1 else 0) ∧
    (record_success s e).cache_misses = s.cache_misses + (if e < 1/10 then 0 else 1) ∧
    (record_success s e).total_time = s.total_time + e := by
  unfold record_success
  split_ifs with h <;> simp

lemma chat_ok_spec (st : BotState) (i c : String) (tok : List (String × Nat)) (e : ℚ) :
    (chat st i (.ok c tok) e).2.chat_history
      = st.chat_history ++
        [{ role := .user, content := i }, { role := .assistant, content := c }] ∧
    (chat st i (.ok c tok) e).2.stats
      = record_success (record_query st.stats (get_urgency_level i)) e ∧
    (chat st i (.ok c tok) e).1
      = ChatResult.ok c (get_urgency_level i) (detect_urgency i) e
          (decide (e < 1/10)) tok := by
  have h := get_llm_preserve
    { st with stats := record_query st.stats (get_urgency_level i) } (detect_urgency i)
  simp only [chat]
  exact ⟨by rw [h.2.1], by rw [h.1], by trivial⟩

lemma chat_err_spec (st : BotState) (i e : String) (el : ℚ) :
    (chat st i (.err e) el).2.chat_history = st.chat_history ∧
    (chat st i (.err e) el).2.stats = record_query st.stats (get_urgency_level i) ∧
    (chat st i (.err e) el).1
      = ChatResult.err e (get_urgency_level i) (detect_urgency i) := by
  have h := get_llm_preserve
    { st with stats := record_query st.stats (get_urgency_level i) } (detect_urgency i)
  simp only [chat]
  exact ⟨by rw [h.2.1], by rw [h.1], by trivial⟩

lemma chat_query_counters (st : BotState) (i : String) (o : Outcome) (el : ℚ) :
    (chat st i o el).2.stats.total_queries = st.stats.total_queries + 1 ∧
    (chat st i o el).2.stats.urgent_queries
      = st.stats.urgent_queries + (if get_urgency_level i = "URGENT" then 1 else 0) ∧
    (chat st i o el).2.stats.casual_queries
      = st.stats.casual_queries + (if get_urgency_level i = "URGENT" then 0 else 1) := by
  cases o with
  | ok c tok =>
      have h := (chat_ok_spec st i c tok el).2.1
      have hrs := record_success_spec (record_query st.stats (get_urgency_level i)) el
      have hrq := record_query_spec st.stats (get_urgency_level i)
      rw [h]
      exact ⟨by rw [hrs.1, hrq.1], by rw [hrs.2.1, hrq.2.1], by rw [hrs.2.2.1, hrq.2.2.1]⟩
  | err e =>
      have h := (chat_err_spec st i e el).2.1
      have hrq := record_query_spec st.stats (get_urgency_level i)
      rw [h]
      exact ⟨hrq.1, hrq.2.1, hrq.2.2.1⟩

lemma countUrgent_cons (t : Turn) (ts : List Turn) :
    countUrgent (t :: ts)
      = countUrgent ts + (if get_urgency_level t.input = "URGENT" then 1 else 0) := by
  simp only [countUrgent, List.filter_cons]
  by_cases h : get_urgency_level t.input = "URGENT" <;> simp [h]

lemma countCasual_cons (t : Turn) (ts : List Turn) :
    countCasual (t :: ts)
      = countCasual ts + (if get_urgency_level t.input = "CASUAL" then 1 else 0) := by
  simp only [countCasual, List.filter_cons]
  by_cases h : get_urgency_level t.input = "CASUAL" <;> simp [h]

lemma get_urgency_level_cases (text : String) :
    get_urgency_level text = "URGENT" ∨ get_urgency_level text = "CASUAL" := by
  unfold get_urgency_level
  by_cases h : detect_urgency text = 1/10
  · rw [if_pos h]
    exact Or.inl rfl
  · rw [if_neg h]
    exact Or.inr rfl

lemma ite_urgent_flip (text : String) :
    (if get_urgency_level text = "URGENT" then (0 : Nat) else 1)
      = (if get_urgency_level text = "CASUAL" then (1 : Nat) else 0) := by
  rcases get_urgency_level_cases text with h | h
  · rw [if_pos h, if_neg (by rw [h]; decide)]
  · rw [if_neg (by rw [h]; decide), if_pos h]

lemma countUrgent_add_countCasual (ts : List Turn) :
    countUrgent ts + countCasual ts = ts.length := by
  induction ts with
  | nil => simp [countUrgent, countCasual]
  | cons t rest ih =>
      rw [countUrgent_cons, countCasual_cons, List.length_cons]
      rcases get_urgency_level_cases t.input with h | h
      · rw [if_pos h, if_neg (by rw [h]; decide)]
        omega
      · rw [if_neg (by rw [h]; decide), if_pos h]
        omega

lemma runSuccess_stats (ts : List Turn) : ∀ st : BotState,
    (runSuccess st ts).stats.total_queries = st.stats.total_queries + ts.length ∧
    (runSuccess st ts).stats.urgent_queries = st.stats.urgent_queries + countUrgent ts ∧
    (runSuccess st ts).stats.casual_queries = st.stats.casual_queries + countCasual ts ∧
    (runSuccess st ts).stats.cache_hits + (runSuccess st ts).stats.cache_misses
      = st.stats.cache_hits + st.stats.cache_misses + ts.length := by
  induction ts with
  | nil =>
      intro st
      simp [runSuccess, countUrgent, countCasual]
  | cons t rest ih =>
      intro st
      have hstep := (chat_ok_spec st t.input t.content t.tokens t.elapsed).2.1
      have hrs := record_success_spec
        (record_query st.stats (get_urgency_level t.input)) t.elapsed
      have hrq := record_query_spec st.stats (get_urgency_level t.input)
      have ihs := ih (chat st t.input (.ok t.content t.tokens) t.elapsed).2
      have hflip := ite_urgent_flip t.input
      have hone : (if t.elapsed < 1/10 then (1 : Nat) else 0)
          + (if t.elapsed < 1/10 then (0 : Nat) else 1) = 1 := by
        split_ifs <;> rfl
      rw [runSuccess] at *
      rw [countUrgent_cons, countCasual_cons]
      refine ⟨?_, ?_, ?_, ?_⟩
      · rw [ihs.1, hstep, hrs.1, hrq.1, List.length_cons]
        omega
      · rw [ihs.2.1, hstep, hrs.2.1, hrq.2.1]
        omega
      · rw [ihs.2.2.1, hstep, hrs.2.2.1, hrq.2.2.1, hflip]
        omega
      · rw [ihs.2.2.2, hstep, hrs.2.2.2.1, hrs.2.2.2.2.1, hrq.2.2.2.1, hrq.2.2.2.2.1,
          List.length_cons]
        omega

lemma runOps_inv (ops : List Op) : ∀ st : BotState, statsInv st → statsInv (runOps st ops) := by
  induction ops with
  | nil =>
      intro st h
      exact h
  | cons op rest ih =>
      intro st h
      cases op with
      | chatOp i o e =>
          rw [runOps]
          apply ih
          have hq := chat_query_counters st i o e
          have hone : (if get_urgency_level i = "URGENT" then (1 : Nat) else 0)
              + (if get_urgency_level i = "URGENT" then (0 : Nat) else 1) = 1 := by
            split_ifs <;> rfl
          unfold statsInv at *
          rw [hq.1, hq.2.1, hq.2.2]
          omega
      | clearOp =>
          rw [runOps]
          apply ih
          exact h

lemma lookup_or_compute_hit {c : CacheState} {k : GenerationRequest}
    {v : String × List (String × Nat)} {comp : String × List (String × Nat)}
    (hfind : cacheLookup c k = some v) :
    lookup_or_compute c k comp = (v, true, c) := by
  unfold lookup_or_compute
  rw [hfind]

lemma lookup_or_compute_miss {c : CacheState} {k : GenerationRequest}
    {comp : String × List (String × Nat)}
    (hfind : cacheLookup c k = none) :
    lookup_or_compute c k comp = (comp, false, { entries := (k, comp) :: c.entries }) := by
  unfold lookup_or_compute
  rw [hfind]

/-! ### Claim theorems -/

/-- C1: classification returns (URGENT, 0.1) exactly when some marker from the
fixed list occurs as a substring of the lowercased text, and (CASUAL, 0.9)
otherwise; the empty string is CASUAL and the single marker "asap" is URGENT. -/
theorem C1_classification :
    (∀ text : String,
      (markerOccurs text →
        detect_urgency text = 1/10 ∧ get_urgency_level text = "URGENT") ∧
      (¬ markerOccurs text →
        detect_urgency text = 9/10 ∧ get_urgency_level text = "CASUAL")) ∧
    detect_urgency "" = 9/10 ∧ get_urgency_level "" = "CASUAL" ∧
    detect_urgency "asap" = 1/10 ∧ get_urgency_level "asap" = "URGENT" := by
  have hempty : detect_urgency "" = 9/10 := by
    have hb : (urgent_keywords.any fun word => hasSub word.data (pyLower "").data) = false := by
      decide
    simp [detect_urgency, hb]
  have hasap : detect_urgency "asap" = 1/10 := by
    have hb : (urgent_keywords.any fun word => hasSub word.data (pyLower "asap").data) = true := by
      decide
    simp [detect_urgency, hb]
  refine ⟨?_, hempty, get_urgency_level_casual hempty, hasap, get_urgency_level_urgent hasap⟩
  intro text
  refine ⟨fun h => ?_, fun h => ?_⟩
  · exact ⟨detect_urgency_of_marker h, get_urgency_level_urgent (detect_urgency_of_marker h)⟩
  · exact ⟨detect_urgency_of_no_marker h, get_urgency_level_casual (detect_urgency_of_no_marker h)⟩

/-- Witness for C1: the concrete input "asap" contains the marker "asap" and is
classified urgent. -/
theorem C1_classification_witness :
    detect_urgency "asap" = 1/10 ∧ get_urgency_level "asap" = "URGENT" :=
  (C1_classification.1 "asap").1 ⟨"asap", by decide, [], [], by decide⟩

/-- C2: when the provider call fails, the history is unchanged, the result is
the failure dictionary carrying the error and the attempted tier and
parameter with success false, and total_queries plus the matching tier
counter have still been incremented by one while the remaining counters are
untouched. -/
theorem C2_failure_behaviour (st : BotState) (input err_msg : String) (elapsed : ℚ) :
    (chat st input (.err err_msg) elapsed).2.chat_history = st.chat_history ∧
    (chat st input (.err err_msg) elapsed).1
      = ChatResult.err err_msg (get_urgency_level input) (detect_urgency input) ∧
    ((chat st input (.err err_msg) elapsed).1).success = false ∧
    (chat st input (.err err_msg) elapsed).2.stats.total_queries
      = st.stats.total_queries + 1 ∧
    (chat st input (.err err_msg) elapsed).2.stats.urgent_queries
      = st.stats.urgent_queries + (if get_urgency_level input = "URGENT" then 1 else 0) ∧
    (chat st input (.err err_msg) elapsed).2.stats.casual_queries
      = st.stats.casual_queries + (if get_urgency_level input = "URGENT" then 0 else 1) ∧
    (chat st input (.err err_msg) elapsed).2.stats.cache_hits = st.stats.cache_hits ∧
    (chat st input (.err err_msg) elapsed).2.stats.cache_misses = st.stats.cache_misses ∧
    (chat st input (.err err_msg) elapsed).2.stats.total_time = st.stats.total_time := by
  have h := chat_err_spec st input err_msg elapsed
  have hrq := record_query_spec st.stats (get_urgency_level input)
  refine ⟨h.1, h.2.2, ?_, ?_, ?_, ?_, ?_, ?_, ?_⟩
  · rw [h.2.2]
    rfl
  · rw [h.2.1, hrq.1]
  · rw [h.2.1, hrq.2.1]
  · rw [h.2.1, hrq.2.2.1]
  · rw [h.2.1, hrq.2.2.2.1]
  · rw [h.2.1, hrq.2.2.2.2.1]
  · rw [h.2.1, hrq.2.2.2.2.2]

/-- C3: submitting the same exact prompt context twice (same history prefix,
same input text, hence the same parameter chosen by the classifier) makes the
second cache access a hit returning output identical to the first access. -/
theorem C3_cache_idempotent (c : CacheState) (history : List Msg)
    (model input : String) (comp1 comp2 : String × List (String × Nat)) :
    (lookup_or_compute
        (lookup_or_compute c (build_request history model input) comp1).2.2
        (build_request history model input) comp2).2.1 = true ∧
    (lookup_or_compute
        (lookup_or_compute c (build_request history model input) comp1).2.2
        (build_request history model input) comp2).1
      = (lookup_or_compute c (build_request history model input) comp1).1 := by
  set k := build_request history model input with hk
  cases hfind : cacheLookup c k with
  | some v =>
      simp [lookup_or_compute_hit hfind]
  | none =>
      have hsecond : cacheLookup { entries := (k, comp1) :: c.entries } k = some comp1 := by
        unfold cacheLookup
        rw [List.find?_cons_of_pos _ (by simp)]
        rfl
      simp [lookup_or_compute_miss hfind, lookup_or_compute_hit hsecond]

/-- C4: after any sequence of successful chat turns from a fresh session,
total_queries is the number of turns, urgent_queries counts the turns whose
input classifies URGENT, casual_queries the rest, and cache_hits plus
cache_misses equal the number of turns. -/
theorem C4_statistics_invariant (ts : List Turn) :
    (runSuccess (initBot "gpt-3.5-turbo") ts).stats.total_queries = ts.length ∧
    (runSuccess (initBot "gpt-3.5-turbo") ts).stats.urgent_queries = countUrgent ts ∧
    (runSuccess (initBot "gpt-3.5-turbo") ts).stats.casual_queries
      = ts.length - countUrgent ts ∧
    (runSuccess (initBot "gpt-3.5-turbo") ts).stats.cache_hits
      + (runSuccess (initBot "gpt-3.5-turbo") ts).stats.cache_misses = ts.length := by
  have h := runSuccess_stats ts (initBot "gpt-3.5-turbo")
  have hsum := countUrgent_add_countCasual ts
  have e1 : (initBot "gpt-3.5-turbo").stats.total_queries = 0 := rfl
  have e2 : (initBot "gpt-3.5-turbo").stats.urgent_queries = 0 := rfl
  have e3 : (initBot "gpt-3.5-turbo").stats.casual_queries = 0 := rfl
  have e4 : (initBot "gpt-3.5-turbo").stats.cache_hits = 0 := rfl
  have e5 : (initBot "gpt-3.5-turbo").stats.cache_misses = 0 := rfl
  refine ⟨?_, ?_, ?_, ?_⟩ <;> omega

/-- C5: on a successful turn the cache-hit counter is incremented exactly when
the measured elapsed time is below 0.1 seconds, the cache-miss counter
otherwise, and the cached field of the result agrees with that condition. -/
theorem C5_cache_heuristic (st : BotState) (input content : String)
    (tok : List (String × Nat)) (elapsed : ℚ) :
    (chat st input (.ok content tok) elapsed).2.stats.cache_hits
      = st.stats.cache_hits + (if elapsed < 1/10 then 1 else 0) ∧
    (chat st input (.ok content tok) elapsed).2.stats.cache_misses
      = st.stats.cache_misses + (if elapsed < 1/10 then 0 else 1) ∧
    (chat st input (.ok content tok) elapsed).1.cached
      = some (decide (elapsed < 1/10)) ∧
    ((chat st input (.ok content tok) elapsed).1.cached = some true ↔
      (chat st input (.ok content tok) elapsed).2.stats.cache_hits
        = st.stats.cache_hits + 1) := by
  have h := chat_ok_spec st input content tok elapsed
  have hrs := record_success_spec (record_query st.stats (get_urgency_level input)) elapsed
  have hrq := record_query_spec st.stats (get_urgency_level input)
  have hhits : (chat st input (.ok content tok) elapsed).2.stats.cache_hits
      = st.stats.cache_hits + (if elapsed < 1/10 then 1 else 0) := by
    rw [h.2.1, hrs.2.2.2.1, hrq.2.2.2.1]
  have hmiss : (chat st input (.ok content tok) elapsed).2.stats.cache_misses
      = st.stats.cache_misses + (if elapsed < 1/10 then 0 else 1) := by
    rw [h.2.1, hrs.2.2.2.2.1, hrq.2.2.2.2.1]
  have hc : (chat st input (.ok content tok) elapsed).1.cached
      = some (decide (elapsed < 1/10)) := by
    rw [h.2.2]
    rfl
  refine ⟨hhits, hmiss, hc, ?_⟩
  rw [hc, hhits]
  by_cases hlt : elapsed < 1/10
  · rw [if_pos hlt, decide_eq_true hlt]
    simp
  · rw [if_neg hlt, decide_eq_false hlt]
    simp

/-- Witness for C5: a turn measured at elapsed time 0 is counted and marked
as a cache hit. -/
theorem C5_cache_heuristic_witness :
    (chat (initBot "gpt-3.5-turbo") "hello" (.ok "hi" []) 0).1.cached = some true := by
  have h := C5_cache_heuristic (initBot "gpt-3.5-turbo") "hello" "hi" [] 0
  rw [h.2.2.1]
  norm_num

/-- C6: a successful turn appends exactly the user message with the submitted
text and then the assistant message with the returned text, keeping all
earlier history entries, and the returned message is that text. -/
theorem C6_history_append (st : BotState) (input content : String)
    (tok : List (String × Nat)) (elapsed : ℚ) :
    (chat st input (.ok content tok) elapsed).2.chat_history
      = st.chat_history ++
        [{ role := .user, content := input },
         { role := .assistant, content := content }] ∧
    (chat st input (.ok content tok) elapsed).1.message = some content := by
  have h := chat_ok_spec st input content tok elapsed
  exact ⟨h.1, by rw [h.2.2]; rfl⟩

/-- C7: clear_history empties the message history and leaves every statistics
counter unchanged. -/
theorem C7_clear_history (st : BotState) :
    (clear_history st).chat_history = [] ∧ (clear_history st).stats = st.stats :=
  ⟨rfl, rfl⟩

/-- C8: the client getter returns a client configured with exactly the
requested parameter; it constructs a fresh client exactly when none exists or
the most recent parameter differs, and otherwise reuses the existing
instance without touching the state. -/
theorem C8_client_reuse (st : BotState) (temperature : ℚ)
    (h : ∀ cl, st.current_llm = some cl → st.current_temperature = some cl.temperature) :
    (get_llm st temperature).1.temperature = temperature ∧
    (st.current_llm = none ∨ st.current_temperature ≠ some temperature →
      (get_llm st temperature).1
        = { id := st.next_llm_id, model := st.model_name,
            temperature := temperature, max_tokens := 300 } ∧
      (get_llm st temperature).2.next_llm_id = st.next_llm_id + 1) ∧
    (∀ cl, st.current_llm = some cl → st.current_temperature = some temperature →
      (get_llm st temperature).1 = cl ∧ (get_llm st temperature).2 = st) := by
  obtain ⟨hist, stats, mn, cl, ct, nid⟩ := st
  cases cl with
  | none =>
      cases ct <;>
        exact ⟨rfl, fun _ => ⟨rfl, rfl⟩, fun c1 hc1 _ => Option.noConfusion hc1⟩
  | some c0 =>
      cases ct with
      | none =>
          exact ⟨rfl, fun _ => ⟨rfl, rfl⟩, fun c1 hc1 heq => Option.noConfusion heq⟩
      | some t0 =>
          have ht0 : t0 = c0.temperature := Option.some.inj (h c0 rfl)
          by_cases ht : t0 = temperature
          · have hred :
                get_llm ⟨hist, stats, mn, some c0, some t0, nid⟩ temperature
                  = (c0, ⟨hist, stats, mn, some c0, some t0, nid⟩) := by
              simp only [get_llm]
              rw [if_pos ht]
            refine ⟨?_, ?_, ?_⟩
            · rw [hred]
              exact ht0 ▸ ht
            · intro hdisj
              rcases hdisj with hno | hne
              · exact Option.noConfusion hno
              · exact absurd (by rw [ht]) hne
            · intro c1 hc1 heq
              have hc : c0 = c1 := Option.some.inj hc1
              rw [hred, hc]
              exact ⟨rfl, rfl⟩
          · have hred :
                get_llm ⟨hist, stats, mn, some c0, some t0, nid⟩ temperature
                  = newClient ⟨hist, stats, mn, some c0, some t0, nid⟩ temperature := by
              simp only [get_llm]
              rw [if_neg ht]
            refine ⟨?_, ?_, ?_⟩
            · rw [hred]
              rfl
            · intro _
              rw [hred]
              exact ⟨rfl, rfl⟩
            · intro c1 hc1 heq
              have : t0 = temperature := Option.some.inj heq
              exact absurd this ht

/-- Witness for C8: on a fresh session (no client yet) requesting parameter
0.9 constructs a client with that parameter and bumps the instance counter. -/
theorem C8_client_reuse_witness :
    (get_llm (initBot "gpt-3.5-turbo") (9/10)).1.temperature = 9/10 ∧
    (get_llm (initBot "gpt-3.5-turbo") (9/10)).2.next_llm_id = 1 := by
  have h := C8_client_reuse (initBot "gpt-3.5-turbo") (9/10)
    (fun cl hc => Option.noConfusion hc)
  exact ⟨h.1, (h.2.1 (Or.inl rfl)).2⟩

/-- C9: the statistics report produces the average response time and the
cache-hit rate exactly when total_queries is positive, omits them when it is
zero, and the computed averages are genuine quotients by the nonzero
total_queries. -/
theorem C9_stats_report_guard (s : Stats) :
    ((show_stats s).isSome ↔ 0 < s.total_queries) ∧
    (∀ a r : ℚ, show_stats s = some (a, r) →
      (s.total_queries : ℚ) ≠ 0 ∧
      a * (s.total_queries : ℚ) = s.total_time ∧
      r * (s.total_queries : ℚ) = (s.cache_hits : ℚ) * 100) := by
  constructor
  · unfold show_stats
    split_ifs with hpos
    · simpa using hpos
    · simpa using hpos
  · intro a r hsome
    unfold show_stats at hsome
    split_ifs at hsome with hpos
    · have hne : (s.total_queries : ℚ) ≠ 0 := by
        exact_mod_cast hpos.ne'
      have hpair := Option.some.inj hsome
      have ha := congrArg Prod.fst hpair
      have hr := congrArg Prod.snd hpair
      dsimp at ha hr
      refine ⟨hne, ?_, ?_⟩
      · rw [← ha, div_mul_cancel₀ _ hne]
      · rw [← hr]
        field_simp

/-- Witness for C9: with two recorded queries the report divides by the
nonzero query count. -/
theorem C9_stats_report_guard_witness :
    (3/2 : ℚ) * (((⟨2, 1, 1, 1, 1, 3⟩ : Stats).total_queries : ℚ))
      = (⟨2, 1, 1, 1, 1, 3⟩ : Stats).total_time := by
  have h := (C9_stats_report_guard ⟨2, 1, 1, 1, 1, 3⟩).2 (3/2) 50 (by
    unfold show_stats
    norm_num)
  exact h.2.1

/-- C10: every chat call, successful or failed, increments total_queries by
one and exactly the tier counter matching the classification, so
urgent_queries + casual_queries = total_queries holds after any sequence of
operations on a fresh session. -/
theorem C10_query_partition :
    (∀ (st : BotState) (input : String) (o : Outcome) (elapsed : ℚ),
      (chat st input o elapsed).2.stats.total_queries = st.stats.total_queries + 1 ∧
      (chat st input o elapsed).2.stats.urgent_queries
        = st.stats.urgent_queries + (if get_urgency_level input = "URGENT" then 1 else 0) ∧
      (chat st input o elapsed).2.stats.casual_queries
        = st.stats.casual_queries + (if get_urgency_level input = "URGENT" then 0 else 1)) ∧
    (∀ ops : List Op,
      (runOps (initBot "gpt-3.5-turbo") ops).stats.urgent_queries
        + (runOps (initBot "gpt-3.5-turbo") ops).stats.casual_queries
        = (runOps (initBot "gpt-3.5-turbo") ops).stats.total_queries) := by
  refine ⟨fun st input o elapsed => chat_query_counters st input o elapsed, ?_⟩
  intro ops
  exact runOps_inv ops (initBot "gpt-3.5-turbo") rfl

end FAQBot
